import Mathlib

/-!
Verification development for the Denmark-Ecosystem-Map verification engine.

Shallow embedding of the JavaScript sources:
  * `src/src/components/addCompanyModal.js` (industry-code classifier module)
  * `src/unnamed/part_004` (confidence-scorer.js)
  * `src/unnamed/part_005` (web-checker.js)
  * `src/verification/index.js` (orchestrator, rate-limit guard, batch controllers)
  * `src/verification/cvr-agent.js` (registry lookup result contract)

JavaScript strings are modelled as Lean `String` or `List Char`; JavaScript
numbers appearing as scores are naturals, years are integers, and the
weighted average is computed over `ℚ` (all weights are exact decimal
fractions, so rational arithmetic models the float computation faithfully at
the magnitudes involved). JavaScript falsiness of a string is `s = ""`,
of a possibly-missing value is `Option.isNone` or emptiness.
`Math.round` is Mathlib `round` (both round half toward positive infinity).
Wall-clock concerns (alert cooldown timestamps, pause sleeping) are not part
of any counter computation and are not modelled; the `new Date().getFullYear()`
call in the age scorer is modelled by an explicit `currentYear` parameter.
-/

/-! ## Industry-code classifier (industry-codes module) -/

/-- Classification types produced by the classifier: the JavaScript strings
`startup`, `holding`, `local_service`, `unknown`. -/
inductive IndType where
  | startup
  | holding
  | local_service
  | unknown
deriving DecidableEq, Repr

/-- One table entry: a label and a score, as in the JS lookup objects. -/
structure CodeEntry where
  label : String
  score : Nat
deriving DecidableEq, Repr

/-- Result shape of `classifyIndustryCode`. -/
structure IndustryClassification where
  type : IndType
  score : Nat
  label : String
deriving DecidableEq, Repr

/-- `STARTUP_CODES` table from the source, in order. -/
def STARTUP_CODES : List (String × CodeEntry) := [
  ("58", ⟨"Publishing", 70⟩),
  ("59", ⟨"Film/Video/TV Production", 60⟩),
  ("60", ⟨"Broadcasting", 50⟩),
  ("61", ⟨"Telecommunications", 75⟩),
  ("62", ⟨"IT Services & Software", 100⟩),
  ("620", ⟨"Computer Programming", 100⟩),
  ("6201", ⟨"Computer Programming Activities", 100⟩),
  ("6202", ⟨"IT Consultancy", 90⟩),
  ("6203", ⟨"Computer Facilities Management", 85⟩),
  ("6209", ⟨"Other IT Services", 85⟩),
  ("63", ⟨"Information Services", 95⟩),
  ("631", ⟨"Data Processing & Hosting", 95⟩),
  ("6311", ⟨"Data Processing", 95⟩),
  ("6312", ⟨"Web Portals", 90⟩),
  ("639", ⟨"Other Information Services", 80⟩),
  ("72", ⟨"Scientific R&D", 95⟩),
  ("721", ⟨"Natural Sciences R&D", 95⟩),
  ("7211", ⟨"Biotechnology R&D", 100⟩),
  ("7219", ⟨"Other Natural Sciences R&D", 90⟩),
  ("722", ⟨"Social Sciences R&D", 70⟩),
  ("70", ⟨"Head Offices & Mgmt Consultancy", 50⟩),
  ("702", ⟨"Management Consultancy", 60⟩),
  ("7021", ⟨"PR & Communication", 65⟩),
  ("7022", ⟨"Business Consultancy", 55⟩),
  ("21", ⟨"Pharmaceuticals Manufacturing", 85⟩),
  ("212", ⟨"Pharmaceutical Preparations", 85⟩),
  ("26", ⟨"Electronics Manufacturing", 90⟩),
  ("261", ⟨"Electronic Components", 90⟩),
  ("262", ⟨"Computers & Peripherals", 95⟩),
  ("263", ⟨"Communication Equipment", 90⟩),
  ("264", ⟨"Consumer Electronics", 80⟩),
  ("265", ⟨"Measuring Instruments", 85⟩),
  ("27", ⟨"Electrical Equipment", 75⟩),
  ("28", ⟨"Machinery Manufacturing", 70⟩),
  ("64", ⟨"Financial Services", 70⟩),
  ("6419", ⟨"Other Monetary Intermediation", 75⟩),
  ("649", ⟨"Other Financial Services", 70⟩),
  ("6499", ⟨"Other Financial Activities", 75⟩),
  ("66", ⟨"Auxiliary Financial Services", 65⟩)]

/-- `HOLDING_CODES` table from the source, in order. -/
def HOLDING_CODES : List (String × CodeEntry) := [
  ("6420", ⟨"Holding Companies", 100⟩),
  ("642", ⟨"Activities of Holding Companies", 100⟩),
  ("6430", ⟨"Trusts & Funds", 90⟩),
  ("643", ⟨"Trusts, Funds & Similar", 90⟩),
  ("6499", ⟨"Other Financial Services (often SPVs)", 60⟩),
  ("7010", ⟨"Head Offices", 70⟩),
  ("701", ⟨"Activities of Head Offices", 70⟩)]

/-- `LOCAL_SERVICE_CODES` table from the source, in order. -/
def LOCAL_SERVICE_CODES : List (String × CodeEntry) := [
  ("47", ⟨"Retail Trade", 100⟩),
  ("471", ⟨"Retail in Stores", 100⟩),
  ("472", ⟨"Food Retail", 100⟩),
  ("4711", ⟨"Supermarkets", 100⟩),
  ("4719", ⟨"Department Stores", 100⟩),
  ("4721", ⟨"Fruit & Vegetables", 100⟩),
  ("4724", ⟨"Bakery Retail", 100⟩),
  ("55", ⟨"Accommodation", 90⟩),
  ("551", ⟨"Hotels", 90⟩),
  ("56", ⟨"Food & Beverage Service", 100⟩),
  ("561", ⟨"Restaurants", 100⟩),
  ("5610", ⟨"Restaurants & Cafes", 100⟩),
  ("562", ⟨"Event Catering", 95⟩),
  ("563", ⟨"Bars", 100⟩),
  ("96", ⟨"Personal Services", 100⟩),
  ("9601", ⟨"Laundry Services", 100⟩),
  ("9602", ⟨"Hairdressing & Beauty", 100⟩),
  ("9603", ⟨"Funeral Services", 100⟩),
  ("9604", ⟨"Physical Wellbeing", 95⟩),
  ("9609", ⟨"Other Personal Services", 90⟩),
  ("41", ⟨"Building Construction", 80⟩),
  ("42", ⟨"Civil Engineering", 70⟩),
  ("43", ⟨"Specialized Construction", 85⟩),
  ("68", ⟨"Real Estate", 90⟩),
  ("681", ⟨"Real Estate with Own Property", 95⟩),
  ("682", ⟨"Real Estate on Fee/Contract", 85⟩),
  ("683", ⟨"Real Estate Management", 80⟩)]

/-- Property lookup `TABLE[prefix]` on one of the three code objects,
keyed by exact key equality (keys are compared as character lists). -/
def lookupTable (t : List (String × CodeEntry)) (p : List Char) : Option CodeEntry :=
  (t.find? (fun e => e.1.data == p)).map (fun e => e.2)

/-- Lookup in `HOLDING_CODES`. -/
def lookupHolding (p : List Char) : Option CodeEntry :=
  lookupTable HOLDING_CODES p

/-- Lookup in `LOCAL_SERVICE_CODES`. -/
def lookupLocal (p : List Char) : Option CodeEntry :=
  lookupTable LOCAL_SERVICE_CODES p

/-- Lookup in `STARTUP_CODES`. -/
def lookupStartup (p : List Char) : Option CodeEntry :=
  lookupTable STARTUP_CODES p

/-- Characters removed by the `replace(/\s/g, "")` normalization step
(the common JavaScript whitespace characters; the digit characters the
classifier cares about are never whitespace). -/
def isJsSpace (c : Char) : Bool :=
  c == ' ' || c == '\t' || c == '\n' || c == '\r' || c == '\x0b' || c == '\x0c'

/-- Normalization from `classifyIndustryCode`: strip whitespace, then strip
the leading run of zeros (`replace(/^0+/, "")`). -/
def normalizeCode (c : String) : List Char :=
  (c.data.filter (fun ch => !isJsSpace ch)).dropWhile (fun ch => ch == '0')

/-- The descending-prefix matching loop of `classifyIndustryCode`:
for `len` from the full length down to 2, try the holding table, then the
local-service table, then the startup table on the length-`len` prefix;
falling out of the loop yields the unclassified default. -/
def classifyLoop (s : List Char) : Nat → IndustryClassification
  | 0 => ⟨IndType.unknown, 50, "Unclassified Industry"⟩
  | 1 => ⟨IndType.unknown, 50, "Unclassified Industry"⟩
  | n + 2 =>
    match lookupHolding (s.take (n + 2)) with
    | some e => ⟨IndType.holding, e.score, e.label⟩
    | none =>
      match lookupLocal (s.take (n + 2)) with
      | some e => ⟨IndType.local_service, e.score, e.label⟩
      | none =>
        match lookupStartup (s.take (n + 2)) with
        | some e => ⟨IndType.startup, e.score, e.label⟩
        | none => classifyLoop s (n + 1)

/-- `classifyIndustryCode` from the source (the `code` argument may be
missing, and the empty string is falsy in JavaScript, so both take the
early `Unknown` return). -/
def classifyIndustryCode (code : Option String) : IndustryClassification :=
  match code with
  | none => ⟨IndType.unknown, 50, "Unknown"⟩
  | some c =>
    if c = "" then ⟨IndType.unknown, 50, "Unknown"⟩
    else
      classifyLoop (normalizeCode c) (normalizeCode c).length

/-- A string of `k` zero characters, for stating the leading-zeros claims. -/
def zeros (k : Nat) : String :=
  String.mk (List.replicate k '0')

/-! ## Web presence checker (web-checker.js) -/

/-- Fields of the website-probe result read by `calculatePresenceScore`
(booleans; a missing `hasHttps` field is falsy, modelled as `false`). -/
structure WebsiteProbe where
  reachable : Bool
  hasHttps : Bool
deriving DecidableEq, Repr

/-- Fields of the LinkedIn-probe result read by `calculatePresenceScore`.
The `confidence` field is absent on the not-found result. -/
structure LinkedInProbe where
  found : Bool
  confidence : Option String
deriving DecidableEq, Repr

/-- Fields of the social-media probe result read by `calculatePresenceScore`. -/
structure SocialProbe where
  count : Nat
deriving DecidableEq, Repr

/-- `calculatePresenceScore(website, linkedin, social)` from web-checker.js. -/
def calculatePresenceScore (website : WebsiteProbe) (linkedin : LinkedInProbe)
    (social : SocialProbe) : Nat :=
  let s1 : Nat := if website.reachable then 40 + (if website.hasHttps then 10 else 0) else 0
  let s2 : Nat := if linkedin.found then (if linkedin.confidence == some "high" then 30 else 20) else 0
  min 100 (s1 + s2 + min 20 (social.count * 5))

/-- The found-profile object literally returned by `checkLinkedIn` when its
probe succeeds: `found: true` with `confidence: "medium"`. No code path in
web-checker.js produces a `"high"` confidence. -/
def checkLinkedInFoundResult : LinkedInProbe :=
  ⟨true, some "medium"⟩

/-- Modelled from the spec: the presence-score formula exactly as claim C6
words it, with 30 points for any found professional profile
("40 pts reachable website (+10 for HTTPS), 30 pts professional profile
found, up to 20 pts for social signals (5 pts each, capped), capped overall
at 100"). Used only to compare against `calculatePresenceScore`. -/
def claimedPresenceScoreC6 (reachable https profileFound : Bool) (signals : Nat) : Nat :=
  min 100 ((if reachable then 40 + (if https then 10 else 0) else 0) +
    (if profileFound then 30 else 0) + min 20 (signals * 5))

/-- Modelled from the spec, amended per the code: a found profile is worth
30 points only at high probe confidence, otherwise 20 points. -/
def amendedPresenceScoreC6 (reachable https profileFound highConfidence : Bool)
    (signals : Nat) : Nat :=
  min 100 ((if reachable then 40 + (if https then 10 else 0) else 0) +
    (if profileFound then (if highConfidence then 30 else 20) else 0) + min 20 (signals * 5))

/-! ## Confidence scorer (confidence-scorer.js) -/

/-- `WEIGHTS` from the source, as exact rationals. -/
structure ScoreWeights where
  cvrStatus : ℚ
  industry : ℚ
  age : ℚ
  webPresence : ℚ
  nameMatch : ℚ
deriving Repr

/-- The fixed scoring weights of the source. -/
def WEIGHTS : ScoreWeights :=
  ⟨0.30, 0.25, 0.15, 0.20, 0.10⟩

/-- `STATUS_SCORES` from the source, in insertion order (the order matters
for the partial-containment pass). Keys are already lowercase. -/
def STATUS_SCORES : List (String × Nat) := [
  ("normal", 100),
  ("aktiv", 100),
  ("active", 100),
  ("under konkurs", 20),
  ("konkurs", 0),
  ("opløst", 0),
  ("tvangsopløst", 0),
  ("under frivillig likvidation", 30),
  ("under tvangsopløsning", 10),
  ("ophørt", 0),
  ("slettet", 0)]

/-- JavaScript `toLowerCase()` on the characters of a string (simple case
mapping; the Danish statuses of interest are already lowercase beyond their
ASCII initial). -/
def toLowerChars (l : List Char) : List Char :=
  l.map Char.toLower

/-- JavaScript `trim()`: drop leading and trailing whitespace characters. -/
def trimChars (l : List Char) : List Char :=
  ((l.dropWhile isJsSpace).reverse.dropWhile isJsSpace).reverse

/-- JavaScript `hay.includes(needle)`: substring containment, true for the
empty needle. -/
def isSubstr (needle : List Char) : List Char → Bool
  | [] => needle.isEmpty
  | c :: t => needle.isPrefixOf (c :: t) || isSubstr needle t

/-- `scoreCvrStatus(status)`: missing or falsy status scores 50; otherwise
lowercase and trim, look for an exact table key, then for the first table
key contained in the status, defaulting to 50. -/
def scoreCvrStatus (status : Option String) : Nat :=
  match status with
  | none => 50
  | some s =>
    if s = "" then 50
    else
      let ns := trimChars (toLowerChars s.data)
      match STATUS_SCORES.find? (fun e => e.1.data == ns) with
      | some e => e.2
      | none =>
        match STATUS_SCORES.find? (fun e => isSubstr e.1.data ns) with
        | some e => e.2
        | none => 50

/-- `scoreAge(foundedYear)` with the wall-clock year passed explicitly.
A missing year, the falsy year 0, and an unparsable year all score 50; the
final two branches mirror the source, including its unreachable
`age < 0` branch (subsumed by `age < 1`). -/
def scoreAge (currentYear : Int) (foundedYear : Option Int) : Nat :=
  match foundedYear with
  | none => 50
  | some y =>
    if y = 0 then 50
    else
      let age := currentYear - y
      if 1 ≤ age ∧ age ≤ 5 then 100
      else if 5 < age ∧ age ≤ 10 then 85
      else if 10 < age ∧ age ≤ 15 then 60
      else if 15 < age ∧ age ≤ 25 then 40
      else if 25 < age then 20
      else if age < 1 then 70
      else if age < 0 then 0
      else 50

/-- Fields of the web-presence object consumed by `scoreWebPresence` (the
pipeline builds it from the checker result plus `pressFound: false`). -/
structure WebPresenceInput where
  websiteReachable : Bool
  linkedInFound : Bool
  socialMedia : Option (List String)
  pressFound : Bool
deriving DecidableEq, Repr

/-- `scoreWebPresence(webPresence)`: a missing object scores 0; otherwise
40 for a reachable website, 30 for LinkedIn, 10 per social platform capped
at 20, 10 for press, all capped at 100. -/
def scoreWebPresence (webPresence : Option WebPresenceInput) : Nat :=
  match webPresence with
  | none => 0
  | some w =>
    let s1 : Nat := if w.websiteReachable then 40 else 0
    let s2 : Nat := if w.linkedInFound then 30 else 0
    let s3 : Nat :=
      match w.socialMedia with
      | none => 0
      | some sm => if 0 < sm.length then min 20 (sm.length * 10) else 0
    let s4 : Nat := if w.pressFound then 10 else 0
    min 100 (s1 + s2 + s3 + s4)

/-- Levenshtein edit distance, the recurrence computed by the DP matrix in
`levenshteinSimilarity` (diagonal on equal characters, otherwise one plus
the minimum of the three neighbour cells). -/
def levenshteinDistance : List Char → List Char → Nat
  | [], b => b.length
  | x :: xs, [] => (x :: xs).length
  | x :: xs, y :: ys =>
    if x = y then levenshteinDistance xs ys
    else 1 + min (levenshteinDistance xs ys) (min (levenshteinDistance (x :: xs) ys) (levenshteinDistance xs (y :: ys)))
termination_by a b => a.length + b.length

/-- `levenshteinSimilarity(a, b)`: `1 - distance / max(len_a, len_b)`,
and 1 when both are empty. -/
def levenshteinSimilarity (a b : List Char) : ℚ :=
  let maxLen := max a.length b.length
  if maxLen = 0 then 1 else 1 - (levenshteinDistance a b : ℚ) / (maxLen : ℚ)

/-- `scoreNameMatch(searchedName, foundName)`: 0 when either name is missing
or falsy; 100 on exact (lowercased, trimmed) match; 90 when one contains the
other; otherwise the rounded scaled Levenshtein similarity. -/
def scoreNameMatch (searchedName foundName : Option String) : ℤ :=
  match searchedName, foundName with
  | some a, some b =>
    if a = "" ∨ b = "" then 0
    else
      let la := trimChars (toLowerChars a.data)
      let lb := trimChars (toLowerChars b.data)
      if la = lb then 100
      else if isSubstr lb la || isSubstr la lb then 90
      else round (levenshteinSimilarity la lb * 100)
  | _, _ => 0

/-- Input record of `calculateConfidence` (each field may be missing). -/
structure ScoreInput where
  cvrStatus : Option String
  industryCode : Option String
  foundedYear : Option Int
  webPresence : Option WebPresenceInput
  searchedName : Option String
  foundName : Option String

/-- The classification-override chain of `calculateConfidence`: the industry
classification starts as the result, holding and local_service win outright,
a total of at least 70 keeps a startup classification, a total below 40
forces unknown, otherwise the industry classification is kept. -/
def resolveClassification (indType : IndType) (total : ℤ) : IndType :=
  if indType = IndType.holding then IndType.holding
  else if indType = IndType.local_service then IndType.local_service
  else if 70 ≤ total ∧ indType = IndType.startup then IndType.startup
  else if total < 40 then IndType.unknown
  else indType

/-- Result shape of `calculateConfidence` (the generated justification
string is not modelled; no claim mentions it). -/
structure ConfidenceResult where
  confidence : ℤ
  classification : IndType
  needsReview : Bool
  breakdownCvrStatus : Nat
  breakdownIndustry : Nat
  breakdownAge : Nat
  breakdownWebPresence : Nat
  breakdownNameMatch : ℤ

/-- `calculateConfidence(data)` from confidence-scorer.js: the five
sub-scores, their weighted rounded total, the classification override chain
and the needs-review band. -/
def calculateConfidence (currentYear : Int) (data : ScoreInput) : ConfidenceResult :=
  let sStatus := scoreCvrStatus data.cvrStatus
  let sIndustry := classifyIndustryCode data.industryCode
  let sAge := scoreAge currentYear data.foundedYear
  let sWeb := scoreWebPresence data.webPresence
  let sName := scoreNameMatch data.searchedName data.foundName
  let total : ℤ := round ((sStatus : ℚ) * WEIGHTS.cvrStatus +
    (sIndustry.score : ℚ) * WEIGHTS.industry +
    (sAge : ℚ) * WEIGHTS.age +
    (sWeb : ℚ) * WEIGHTS.webPresence +
    (sName : ℚ) * WEIGHTS.nameMatch)
  { confidence := total
    classification := resolveClassification sIndustry.type total
    needsReview := decide (40 ≤ total ∧ total < 70)
    breakdownCvrStatus := sStatus
    breakdownIndustry := sIndustry.score
    breakdownAge := sAge
    breakdownWebPresence := sWeb
    breakdownNameMatch := sName }

/-! ## Rate-limit guard and batch controllers (verification/index.js) -/

/-- The module-level `rateLimitState` object: the two ordinary counters,
the stale `consecutiveNullCvr` field that `batchVerify` still writes after
a pause, and the (never consulted) `isPaused` flag. The `lastAlertTime`
wall-clock field only throttles console alerts and is not modelled. -/
structure RateLimitState where
  consecutiveSearchFailures : Nat
  consecutiveFailures : Nat
  consecutiveNullCvr : Nat
  isPaused : Bool
deriving DecidableEq, Repr

/-- The initial value of the module-level `rateLimitState`. -/
def rateLimitState : RateLimitState :=
  ⟨0, 0, 0, false⟩

/-- `RATE_LIMIT_THRESHOLDS` from the source (durations in milliseconds). -/
structure RateLimitThresholds where
  searchFailureLimit : Nat
  failureLimit : Nat
  pauseDuration : Nat
  alertCooldown : Nat
deriving Repr

/-- The fixed thresholds of the source. -/
def RATE_LIMIT_THRESHOLDS : RateLimitThresholds :=
  ⟨3, 3, 300000, 600000⟩

/-- The shape `lookupCompany` (cvr-agent.js) resolves with: on a search-level
failure it catches its own exception and returns `success: false` with an
`error` message; on a clean run, `success` mirrors `found` and `cvrNumber`
carries the extracted number. -/
structure CvrLookupResult where
  success : Bool
  error : Option String
  cvrNumber : Option String
deriving DecidableEq, Repr

/-- A search-level lookup failure as produced by the catch block of
`lookupCompany` (a LookupFailure outcome in the error taxonomy). -/
def lookupFailure (msg : String) : CvrLookupResult :=
  ⟨false, some msg, none⟩

/-- The fields of the object returned by `verifyCompany` that the batch
controllers pass to `checkRateLimit`: the `success` flag and the nested
`cvr.number`. The nested `cvr` object of a successful return carries no
`error` or `success` fields. -/
structure VerifyResult where
  success : Bool
  cvrNumber : Option String
deriving DecidableEq, Repr

/-- `verifyCompany` does not throw when the registry lookup itself fails:
`lookupCompany` resolves with an error object, scoring proceeds, and the
returned result still has `success: true`, with `cvr.number` taken from the
(absent) `cvrNumber` of the failed lookup. -/
def verifyCompanyResult (raw : CvrLookupResult) : VerifyResult :=
  ⟨true, raw.cvrNumber⟩

/-- The view of the `rawCvrData` argument that `checkRateLimit` inspects:
an optionally-present object with optionally-present `error` and `success`
fields (both absent on the object `parallelBatchVerify` actually passes). -/
structure RawCvrView where
  error : Option String
  success : Option Bool
deriving DecidableEq, Repr

/-- JavaScript truthiness of an optionally-present string field. -/
def jsTruthyStr (s : Option String) : Bool :=
  match s with
  | none => false
  | some v => !(v = "")

/-- `checkRateLimit(result, rawCvrData)` from verification/index.js.
Case 1: the verification itself failed. Case 2: the raw lookup object is
present with a truthy `error`. Case 3: no CVR number and the raw lookup
object says `success === false` (a clean miss, returned early without a
threshold check). Case 4: everything else resets both counters. Returns the
updated state and the `isRateLimited` flag. -/
def checkRateLimit (st : RateLimitState) (result : VerifyResult)
    (rawCvrData : Option RawCvrView) : RateLimitState × Bool :=
  if !result.success then
    let st1 := { st with consecutiveFailures := st.consecutiveFailures + 1,
                         consecutiveSearchFailures := 0 }
    (st1, decide (RATE_LIMIT_THRESHOLDS.searchFailureLimit ≤ st1.consecutiveSearchFailures) ||
          decide (RATE_LIMIT_THRESHOLDS.failureLimit ≤ st1.consecutiveFailures))
  else if (match rawCvrData with
           | some r => jsTruthyStr r.error
           | none => false) then
    let st1 := { st with consecutiveSearchFailures := st.consecutiveSearchFailures + 1,
                         consecutiveFailures := 0 }
    (st1, decide (RATE_LIMIT_THRESHOLDS.searchFailureLimit ≤ st1.consecutiveSearchFailures) ||
          decide (RATE_LIMIT_THRESHOLDS.failureLimit ≤ st1.consecutiveFailures))
  else if !jsTruthyStr result.cvrNumber &&
          (match rawCvrData with
           | some r => r.success == some false
           | none => false) then
    ({ st with consecutiveSearchFailures := 0, consecutiveFailures := 0 }, false)
  else
    ({ st with consecutiveSearchFailures := 0, consecutiveFailures := 0 }, false)

/-- One iteration of the rate-limit bookkeeping of the sequential
`batchVerify` loop: it calls `checkRateLimit(result)` with no `rawCvrData`
argument, and on a trigger counts a pause and performs the post-pause reset,
which writes `consecutiveNullCvr` (a stale field name) and
`consecutiveFailures`, leaving `consecutiveSearchFailures` untouched. -/
def batchVerifyStep (acc : RateLimitState × Nat) (result : VerifyResult) :
    RateLimitState × Nat :=
  let (st1, isRateLimited) := checkRateLimit acc.1 result none
  if isRateLimited then
    ({ st1 with consecutiveNullCvr := 0, consecutiveFailures := 0 }, acc.2 + 1)
  else
    (st1, acc.2)

/-- The sequential `batchVerify` rate-limit bookkeeping over the per-item
`verifyCompany` results, from a given shared-state value, returning the
final shared state and the `rateLimitPauses` tally. -/
def batchVerifyRun (st : RateLimitState) (results : List VerifyResult) :
    RateLimitState × Nat :=
  results.foldl batchVerifyStep (st, 0)

/-- One iteration of the rate-limit bookkeeping of `parallelBatchVerify`:
it calls `checkRateLimit(result, result.cvr)` — the nested `cvr` object,
present only on a fulfilled successful result and carrying no `error` or
`success` fields — and on a trigger counts a pause and resets both counters. -/
def parallelBatchStep (acc : RateLimitState × Nat) (result : VerifyResult) :
    RateLimitState × Nat :=
  let rawArg : Option RawCvrView := if result.success then some ⟨none, none⟩ else none
  let (st1, isRateLimited) := checkRateLimit acc.1 result rawArg
  if isRateLimited then
    ({ st1 with consecutiveSearchFailures := 0, consecutiveFailures := 0 }, acc.2 + 1)
  else
    (st1, acc.2)

/-- The `parallelBatchVerify` rate-limit bookkeeping over the settled
per-item results of one run. -/
def parallelBatchRun (st : RateLimitState) (results : List VerifyResult) :
    RateLimitState × Nat :=
  results.foldl parallelBatchStep (st, 0)

/-! ## Helper lemmas -/

/-- With no `rawCvrData` argument — the call shape of the sequential
`batchVerify` — `checkRateLimit` can only take case 1 or case 4: a
successful result resets both counters, a failed result bumps the
verification-failure counter and zeroes the search-failure counter. -/
theorem checkRateLimit_seq (st : RateLimitState) (r : VerifyResult) :
    checkRateLimit st r none =
      if r.success then
        ({ st with consecutiveSearchFailures := 0, consecutiveFailures := 0 }, false)
      else
        ({ st with consecutiveFailures := st.consecutiveFailures + 1,
                   consecutiveSearchFailures := 0 },
         decide (3 ≤ st.consecutiveFailures + 1)) := by
  cases hr : r.success <;>
    simp [checkRateLimit, hr, jsTruthyStr, RATE_LIMIT_THRESHOLDS]

/-- With the `rawCvrData` argument `parallelBatchVerify` actually passes —
the nested `cvr` view, which has no `error` or `success` fields — the
behaviour of `checkRateLimit` is the same as with no argument at all. -/
theorem checkRateLimit_par (st : RateLimitState) (r : VerifyResult) :
    checkRateLimit st r (if r.success then some ⟨none, none⟩ else none) =
      checkRateLimit st r none := by
  cases hr : r.success <;>
    simp [checkRateLimit, hr, jsTruthyStr, RATE_LIMIT_THRESHOLDS]

/-- Closed form of one sequential batch iteration: a success resets both
counters; a third consecutive verification failure pauses and leaves both
counters (and the stale `consecutiveNullCvr` field) at zero; an earlier
failure just bumps the verification-failure counter. -/
theorem batchVerifyStep_eq (st : RateLimitState) (p : Nat) (r : VerifyResult) :
    batchVerifyStep (st, p) r =
      if r.success then
        ({ st with consecutiveSearchFailures := 0, consecutiveFailures := 0 }, p)
      else if 3 ≤ st.consecutiveFailures + 1 then
        ({ st with consecutiveSearchFailures := 0, consecutiveFailures := 0,
                   consecutiveNullCvr := 0 }, p + 1)
      else
        ({ st with consecutiveFailures := st.consecutiveFailures + 1,
                   consecutiveSearchFailures := 0 }, p) := by
  cases hr : r.success with
  | true => simp [batchVerifyStep, checkRateLimit_seq, hr]
  | false =>
    by_cases h3 : 3 ≤ st.consecutiveFailures + 1 <;>
      simp [batchVerifyStep, checkRateLimit_seq, hr, h3]

/-- Closed form of one parallel batch iteration: identical to the
sequential one except that the post-pause reset leaves
`consecutiveNullCvr` untouched. -/
theorem parallelBatchStep_eq (st : RateLimitState) (p : Nat) (r : VerifyResult) :
    parallelBatchStep (st, p) r =
      if r.success then
        ({ st with consecutiveSearchFailures := 0, consecutiveFailures := 0 }, p)
      else if 3 ≤ st.consecutiveFailures + 1 then
        ({ st with consecutiveSearchFailures := 0, consecutiveFailures := 0 }, p + 1)
      else
        ({ st with consecutiveFailures := st.consecutiveFailures + 1,
                   consecutiveSearchFailures := 0 }, p) := by
  cases hr : r.success with
  | true => simp [parallelBatchStep, checkRateLimit, hr, jsTruthyStr]
  | false =>
    by_cases h3 : 3 ≤ st.consecutiveFailures + 1 <;>
      simp [parallelBatchStep, checkRateLimit, hr, jsTruthyStr, RATE_LIMIT_THRESHOLDS, h3]

/-- Rounding stays inside the 0..100 band. -/
theorem roundBounds (x : ℚ) (h0 : 0 ≤ x) (h1 : x ≤ 100) :
    0 ≤ round x ∧ round x ≤ 100 := by
  rw [round_eq]
  refine ⟨Int.floor_nonneg.mpr (by linarith), ?_⟩
  have hf : ((⌊x + 1 / 2⌋ : ℤ) : ℚ) ≤ x + 1 / 2 := Int.floor_le _
  have h101 : ⌊x + 1 / 2⌋ < 101 := by
    by_contra hc
    push_neg at hc
    have : ((101 : ℤ) : ℚ) ≤ ((⌊x + 1 / 2⌋ : ℤ) : ℚ) := Int.cast_le.mpr hc
    norm_num at this
    linarith
  omega

/-- The edit distance never exceeds the length of the longer word. -/
theorem levenshteinDistance_le (a : List Char) :
    ∀ b : List Char, levenshteinDistance a b ≤ max a.length b.length := by
  induction a with
  | nil =>
    intro b
    simp [levenshteinDistance]
  | cons x xs iha =>
    intro b
    induction b with
    | nil =>
      simp [levenshteinDistance]
    | cons y ys ihb =>
      by_cases hxy : x = y
      · have h1 := iha ys
        simp only [levenshteinDistance, if_pos hxy, List.length_cons]
        omega
      · have h1 := iha ys
        have h2 := iha (y :: ys)
        have h3 := ihb
        simp only [levenshteinDistance, if_neg hxy, List.length_cons] at *
        omega

/-- The similarity quotient stays inside the unit interval. -/
theorem levenshteinSimilarity_bounds (a b : List Char) :
    0 ≤ levenshteinSimilarity a b ∧ levenshteinSimilarity a b ≤ 1 := by
  unfold levenshteinSimilarity
  by_cases h : max a.length b.length = 0
  · simp [h]
  · have hpos : 0 < max a.length b.length := Nat.pos_of_ne_zero h
    have hd : levenshteinDistance a b ≤ max a.length b.length := levenshteinDistance_le a b
    have hqpos : (0 : ℚ) < ((max a.length b.length : ℕ) : ℚ) := Nat.cast_pos.mpr hpos
    have hdq : ((levenshteinDistance a b : ℕ) : ℚ) ≤ ((max a.length b.length : ℕ) : ℚ) :=
      Nat.cast_le.mpr hd
    have hdiv1 : ((levenshteinDistance a b : ℕ) : ℚ) / ((max a.length b.length : ℕ) : ℚ) ≤ 1 :=
      (div_le_one hqpos).mpr hdq
    have hdiv0 : 0 ≤ ((levenshteinDistance a b : ℕ) : ℚ) / ((max a.length b.length : ℕ) : ℚ) :=
      div_nonneg (Nat.cast_nonneg _) (le_of_lt hqpos)
    simp only [if_neg h]
    constructor <;> linarith

/-- A successful table lookup comes from a table row whose key spells the
looked-up prefix. -/
theorem lookupTable_eq_some {t : List (String × CodeEntry)} {p : List Char}
    {e : CodeEntry} (h : lookupTable t p = some e) :
    ∃ kv, kv ∈ t ∧ kv.1.data = p ∧ kv.2 = e := by
  unfold lookupTable at h
  cases hf : t.find? (fun e => e.1.data == p) with
  | none => rw [hf] at h; simp at h
  | some kv =>
    rw [hf] at h
    simp at h
    have hmem := List.mem_of_find?_eq_some hf
    have hkey := List.find?_some hf
    simp at hkey
    exact ⟨kv, hmem, hkey, h⟩

/-- Every score in the three classifier tables is at most 100. -/
theorem tables_score_le :
    ∀ kv ∈ HOLDING_CODES ++ LOCAL_SERVICE_CODES ++ STARTUP_CODES,
      (kv : String × CodeEntry).2.score ≤ 100 := by decide

/-- Every status score in `STATUS_SCORES` is at most 100. -/
theorem status_scores_le : ∀ kv ∈ STATUS_SCORES, (kv : String × Nat).2 ≤ 100 := by decide

/-- Every key of the holding table has at least three characters. -/
theorem holding_keys_long : ∀ kv ∈ HOLDING_CODES, 3 ≤ (kv : String × CodeEntry).1.data.length := by
  decide

/-- Table closure fact for the priority argument: whenever a holding-table
key is a prefix of a local-service or startup key, that longer key is itself
in the holding table (the only overlap is the key 6499, present in both the
holding and startup tables at the same length). -/
theorem holding_closed :
    ∀ kv ∈ HOLDING_CODES, ∀ kv2 ∈ LOCAL_SERVICE_CODES ++ STARTUP_CODES,
      (kv : String × CodeEntry).1.data.isPrefixOf (kv2 : String × CodeEntry).1.data = true →
      (lookupHolding kv2.1.data).isSome := by decide

/-- The classifier loop only produces scores up to 100. -/
theorem classifyLoop_score_le (s : List Char) :
    ∀ len, (classifyLoop s len).score ≤ 100 := by
  intro len
  induction len using Nat.strong_induction_on with
  | _ len ih =>
    match len with
    | 0 => simp [classifyLoop]
    | 1 => simp [classifyLoop]
    | n + 2 =>
      cases hH : lookupHolding (s.take (n + 2)) with
      | some e =>
        obtain ⟨kv, hmem, _, hkv⟩ := lookupTable_eq_some hH
        have hle := tables_score_le kv
          (List.mem_append.mpr (Or.inl (List.mem_append.mpr (Or.inl hmem))))
        simp [classifyLoop, hH]
        exact hkv ▸ hle
      | none =>
        cases hL : lookupLocal (s.take (n + 2)) with
        | some e =>
          obtain ⟨kv, hmem, _, hkv⟩ := lookupTable_eq_some hL
          have hle := tables_score_le kv
            (List.mem_append.mpr (Or.inl (List.mem_append.mpr (Or.inr hmem))))
          simp [classifyLoop, hH, hL]
          exact hkv ▸ hle
        | none =>
          cases hS : lookupStartup (s.take (n + 2)) with
          | some e =>
            obtain ⟨kv, hmem, _, hkv⟩ := lookupTable_eq_some hS
            have hle := tables_score_le kv (List.mem_append.mpr (Or.inr hmem))
            simp [classifyLoop, hH, hL, hS]
            exact hkv ▸ hle
          | none =>
            simp only [classifyLoop, hH, hL, hS]
            exact ih (n + 1) (by omega)

/-- The industry sub-score is at most 100. -/
theorem classifyIndustryCode_score_le (code : Option String) :
    (classifyIndustryCode code).score ≤ 100 := by
  cases code with
  | none => simp [classifyIndustryCode]
  | some c =>
    by_cases hc : c = "" <;> simp [classifyIndustryCode, hc, classifyLoop_score_le]

/-- The registry-status sub-score is at most 100. -/
theorem scoreCvrStatus_le (status : Option String) : scoreCvrStatus status ≤ 100 := by
  cases status with
  | none => simp [scoreCvrStatus]
  | some s =>
    by_cases hs : s = ""
    · simp [scoreCvrStatus, hs]
    · simp only [scoreCvrStatus, if_neg hs]
      cases h1 : STATUS_SCORES.find? (fun e => e.1.data == trimChars (toLowerChars s.data)) with
      | some e => exact status_scores_le e (List.mem_of_find?_eq_some h1)
      | none =>
        cases h2 : STATUS_SCORES.find? (fun e => isSubstr e.1.data (trimChars (toLowerChars s.data))) with
        | some e => exact status_scores_le e (List.mem_of_find?_eq_some h2)
        | none => simp

/-- The age sub-score is at most 100. -/
theorem scoreAge_le (currentYear : Int) (foundedYear : Option Int) :
    scoreAge currentYear foundedYear ≤ 100 := by
  cases foundedYear with
  | none => simp [scoreAge]
  | some y =>
    simp only [scoreAge]
    split_ifs <;> omega

/-- The web-presence sub-score is at most 100. -/
theorem scoreWebPresence_le (webPresence : Option WebPresenceInput) :
    scoreWebPresence webPresence ≤ 100 := by
  cases webPresence with
  | none => simp [scoreWebPresence]
  | some w => simp [scoreWebPresence]

/-- The name-match sub-score lies in the 0..100 band. -/
theorem scoreNameMatch_bounds (a b : Option String) :
    0 ≤ scoreNameMatch a b ∧ scoreNameMatch a b ≤ 100 := by
  cases a with
  | none => simp [scoreNameMatch]
  | some a =>
    cases b with
    | none => simp [scoreNameMatch]
    | some b =>
      simp only [scoreNameMatch]
      split_ifs with h1 h2 h3
      · omega
      · omega
      · omega
      · have hsim := levenshteinSimilarity_bounds (trimChars (toLowerChars a.data))
          (trimChars (toLowerChars b.data))
        have h0 : 0 ≤ levenshteinSimilarity (trimChars (toLowerChars a.data))
            (trimChars (toLowerChars b.data)) * 100 := by nlinarith [hsim.1]
        have h100 : levenshteinSimilarity (trimChars (toLowerChars a.data))
            (trimChars (toLowerChars b.data)) * 100 ≤ 100 := by nlinarith [hsim.2]
        exact roundBounds _ h0 h100

/-- Core of the prefix-priority argument: once some prefix of `s` at a
length `L` within `s` hits the holding table, the descending-length loop
classifies `s` as holding, for any starting length from `L` up to the
length of `s`. -/
theorem classifyLoop_holding (s : List Char) (L : Nat) (hLs : L ≤ s.length)
    (hH : (lookupHolding (s.take L)).isSome) :
    ∀ len, L ≤ len → len ≤ s.length → (classifyLoop s len).type = IndType.holding := by
  obtain ⟨e, he⟩ := Option.isSome_iff_exists.mp hH
  obtain ⟨kv, hkv_mem, hkv_eq, _⟩ := lookupTable_eq_some he
  have htakelen : (s.take L).length = L := by
    rw [List.length_take]
    omega
  have hL3 : 3 ≤ L := by
    have hlong := holding_keys_long kv hkv_mem
    rw [hkv_eq, htakelen] at hlong
    exact hlong
  intro len
  induction len using Nat.strong_induction_on with
  | _ len ih =>
    intro hLlen hlens
    obtain ⟨n, rfl⟩ : ∃ n, len = n + 2 := ⟨len - 2, by omega⟩
    cases hH2 : lookupHolding (s.take (n + 2)) with
    | some e2 => simp [classifyLoop, hH2]
    | none =>
      have hneq : L ≠ n + 2 := by
        intro hcontra
        rw [hcontra] at he
        rw [he] at hH2
        exact Option.noConfusion hH2
      have hLlt : L < n + 2 := lt_of_le_of_ne hLlen hneq
      have hpref : (s.take L).isPrefixOf (s.take (n + 2)) = true := by
        rw [ List.isPrefixOf_iff_prefix]
        have := List.take_prefix L (s.take (n + 2))
        rwa [List.take_take, min_eq_left (by omega : L ≤ n + 2)] at this
      cases hL2 : lookupLocal (s.take (n + 2)) with
      | some e2 =>
        exfalso
        obtain ⟨kv2, hkv2_mem, hkv2_eq, _⟩ := lookupTable_eq_some hL2
        have hclosed := holding_closed kv hkv_mem kv2
          (List.mem_append.mpr (Or.inl hkv2_mem))
          (by rw [hkv_eq, hkv2_eq]; exact hpref)
        rw [hkv2_eq, hH2] at hclosed
        simp at hclosed
      | none =>
        cases hS2 : lookupStartup (s.take (n + 2)) with
        | some e2 =>
          exfalso
          obtain ⟨kv2, hkv2_mem, hkv2_eq, _⟩ := lookupTable_eq_some hS2
          have hclosed := holding_closed kv hkv_mem kv2
            (List.mem_append.mpr (Or.inr hkv2_mem))
            (by rw [hkv_eq, hkv2_eq]; exact hpref)
          rw [hkv2_eq, hH2] at hclosed
          simp at hclosed
        | none =>
          simp only [classifyLoop, hH2, hL2, hS2]
          exact ih (n + 1) (by omega) (by omega) (by omega)

/-- Filtering the whitespace predicate keeps a run of zero characters. -/
theorem filter_replicate_zero (k : Nat) :
    (List.replicate k '0').filter (fun ch => !isJsSpace ch) = List.replicate k '0' := by
  induction k with
  | zero => rfl
  | succ k ih => simp [List.replicate_succ, List.filter_cons, isJsSpace, ih]

/-- Dropping the leading-zero run removes any prepended zero characters. -/
theorem dropWhile_replicate_zero (k : Nat) (l : List Char) :
    (List.replicate k '0' ++ l).dropWhile (fun ch => ch == '0') =
      l.dropWhile (fun ch => ch == '0') := by
  induction k with
  | zero => rfl
  | succ k ih => simp [List.replicate_succ, List.dropWhile_cons, ih]

/-- Prepending zeros does not change the normalized code. -/
theorem normalizeCode_zeros (k : Nat) (c : String) :
    normalizeCode (zeros k ++ c) = normalizeCode c := by
  have hdata : (zeros k ++ c).data = List.replicate k '0' ++ c.data := rfl
  unfold normalizeCode
  rw [hdata, List.filter_append, filter_replicate_zero, dropWhile_replicate_zero]

/-- The override chain can only produce holding or local_service when the
industry classifier supplied that type. -/
theorem resolveClassification_iff (t : IndType) (total : ℤ) :
    (resolveClassification t total = IndType.holding ↔ t = IndType.holding) ∧
    (resolveClassification t total = IndType.local_service ↔ t = IndType.local_service) := by
  cases t <;> simp only [resolveClassification] <;> split_ifs <;> simp_all

/-- The classification field of the scorer result is the override chain
applied to the industry type and the rounded total. -/
theorem calculateConfidence_classification (currentYear : Int) (data : ScoreInput) :
    (calculateConfidence currentYear data).classification =
      resolveClassification (classifyIndustryCode data.industryCode).type
        (calculateConfidence currentYear data).confidence := rfl

/-! ## Claim theorems -/

/-- Claim C1 (code bug): in a sequential batch whose first three items are
search-level lookup failures, the code triggers no pause at all — not one
pause before item 4 as the claim states. `verifyCompany` resolves
successfully even when `lookupCompany` reports a search error, and
`batchVerify` calls `checkRateLimit(result)` without the `rawCvrData`
argument, so the search-failure counter can never be incremented: the
batch of five (three LookupFailure items, then two clean successes)
finishes with zero pauses, and the search-failure counter is still zero
right after the three failures. -/
theorem C1_sequential_lookup_failures_never_pause :
    (batchVerifyRun rateLimitState
      [verifyCompanyResult (lookupFailure "Timeout"),
       verifyCompanyResult (lookupFailure "Timeout"),
       verifyCompanyResult (lookupFailure "Timeout"),
       ⟨true, some "12345678"⟩, ⟨true, some "87654321"⟩]).2 = 0 ∧
    (batchVerifyRun rateLimitState
      [verifyCompanyResult (lookupFailure "Timeout"),
       verifyCompanyResult (lookupFailure "Timeout"),
       verifyCompanyResult (lookupFailure "Timeout")]).1.consecutiveSearchFailures = 0 := by
  decide

/-- Claim C3, counterexample: `rateLimitState` is one module-level object, so
two independently started batch runs step the same counters. Feeding two
failing outcomes through run A changes the state run B reads (the
verification-failure counter is no longer the initial zero), and run B
then observes a pause on an outcome that triggers no pause when B runs
alone from the initial state. -/
theorem C3_counterexample_shared_guard_state :
    (batchVerifyRun rateLimitState [⟨false, none⟩, ⟨false, none⟩]).1.consecutiveFailures ≠
      rateLimitState.consecutiveFailures ∧
    (batchVerifyStep ((batchVerifyRun rateLimitState [⟨false, none⟩, ⟨false, none⟩]).1, 0)
        ⟨false, none⟩).2 ≠
      (batchVerifyStep (rateLimitState, 0) ⟨false, none⟩).2 := by
  decide

/-- Claim C3, amended: the guard state is process-wide, not per-run — after
run A feeds two failing outcomes into the shared `rateLimitState`, the
verification-failure counter run B reads is already 2, and the same single
failing outcome from run B triggers a pause in the shared process history
(pause tally 1) but no pause from the initial state (pause tally 0). -/
theorem C3_amended_shared_state_interference :
    (batchVerifyRun rateLimitState [⟨false, none⟩, ⟨false, none⟩]).1.consecutiveFailures = 2 ∧
    (batchVerifyStep ((batchVerifyRun rateLimitState [⟨false, none⟩, ⟨false, none⟩]).1, 0)
        ⟨false, none⟩).2 = 1 ∧
    (batchVerifyStep (rateLimitState, 0) ⟨false, none⟩).2 = 0 := by
  decide

/-- Claim C4, counterexample: a missing found-name makes the name-match
sub-score 0, not the neutral 50 the claim states. -/
theorem C4_counterexample_missing_name_scores_zero :
    scoreNameMatch (some "Acme") none = 0 ∧ scoreNameMatch (some "Acme") none ≠ 50 := by
  decide

/-- Claim C4, amended: a missing registry status, industry code, or founding
year defaults its sub-score to 50 (as does an unrecognized status string),
while both a missing web-presence object and a missing name default their
sub-scores to 0. -/
theorem C4_amended_default_subscores (currentYear : Int) (a b : Option String) :
    scoreCvrStatus none = 50 ∧
    (classifyIndustryCode none).score = 50 ∧
    scoreAge currentYear none = 50 ∧
    scoreCvrStatus (some "Helt Ukendt") = 50 ∧
    scoreWebPresence none = 0 ∧
    scoreNameMatch none b = 0 ∧
    scoreNameMatch a none = 0 := by
  refine ⟨rfl, rfl, rfl, by decide, rfl, ?_, ?_⟩
  · cases b <;> rfl
  · cases a <;> rfl

/-- Claim C5 (code bug): a founding year in the future (negative age) scores
70, not the 0 the claim states: the `age < 1` branch of `scoreAge` comes
before the `age < 0` branch in the source, so the latter is dead code. At
current year 2026, a company founded in 2030 gets age sub-score 70. -/
theorem C5_future_founding_year_scores_70 :
    scoreAge 2026 (some 2030) = 70 ∧ scoreAge 2026 (some 2030) ≠ 0 := by
  decide

/-- Claim C6, counterexample: a found professional profile contributes 20
points, not 30 — `checkLinkedIn` tags every found profile with confidence
"medium", and `calculatePresenceScore` awards 30 only for confidence
"high". A reachable HTTPS website plus a found profile and no social
signals scores 70, while the claimed formula gives 80. -/
theorem C6_counterexample_found_profile_scores_twenty :
    calculatePresenceScore ⟨true, true⟩ checkLinkedInFoundResult ⟨0⟩ = 70 ∧
    claimedPresenceScoreC6 true true true 0 = 80 ∧
    calculatePresenceScore ⟨true, true⟩ checkLinkedInFoundResult ⟨0⟩ ≠
      claimedPresenceScoreC6 true true true 0 := by
  decide

/-- Claim C6, amended: the presence score is 40 for a reachable website plus
10 for HTTPS, plus 30 points for a found professional profile only at high
probe confidence and 20 points otherwise, plus 5 points per social signal
capped at 20, all capped at 100 — and the profile results the checker
actually produces carry confidence "medium", hence contribute 20. -/
theorem C6_amended_presence_score_formula (website : WebsiteProbe)
    (linkedin : LinkedInProbe) (social : SocialProbe) :
    calculatePresenceScore website linkedin social =
      amendedPresenceScoreC6 website.reachable website.hasHttps linkedin.found
        (linkedin.confidence == some "high") social.count ∧
    checkLinkedInFoundResult.confidence = some "medium" := by
  exact ⟨rfl, rfl⟩

/-- Claim C7, counterexample: for the empty code string the claim fails on
the label component — the empty string is falsy and returns the label
"Unknown", while the same string with two leading zeros prepended
normalizes to the empty character list and returns the label
"Unclassified Industry"; type and score still agree. -/
theorem C7_counterexample_empty_code_label_differs :
    classifyIndustryCode (some (zeros 2 ++ "")) ≠ classifyIndustryCode (some "") ∧
    (classifyIndustryCode (some (zeros 2 ++ ""))).type = (classifyIndustryCode (some "")).type ∧
    (classifyIndustryCode (some (zeros 2 ++ ""))).score = (classifyIndustryCode (some "")).score := by
  decide

/-- Claim C7, amended: for every nonempty industry code string, the
classifier returns the same result (type, score, and label) with any number
of leading zeros prepended; only the empty string differs, and only in the
label component. -/
theorem C7_amended_leading_zeros_invariance (c : String) (k : Nat) (h : c ≠ "") :
    classifyIndustryCode (some (zeros k ++ c)) = classifyIndustryCode (some c) := by
  have hd : (zeros k ++ c).data = List.replicate k '0' ++ c.data := rfl
  have hne : zeros k ++ c ≠ "" := by
    intro hcontra
    have hnil : List.replicate k '0' ++ c.data = [] := by
      rw [← hd, hcontra]
    have hc : c.data = [] := (List.append_eq_nil.mp hnil).2
    apply h
    cases c with
    | mk d =>
      simp only [String.data] at hc
      rw [hc]
  simp only [classifyIndustryCode, if_neg hne, if_neg h, normalizeCode_zeros]

/-- Witness for the amended C7 theorem at the code 0642 with three extra
zeros: both spellings classify identically. -/
theorem C7_amended_leading_zeros_invariance_witness :
    ("0642" : String) ≠ "" ∧
    classifyIndustryCode (some (zeros 3 ++ "0642")) = classifyIndustryCode (some "0642") :=
  ⟨by decide, C7_amended_leading_zeros_invariance "0642" 3 (by decide)⟩

/-- Claim C2: whenever a batch iteration counts a rate-limit pause — in the
sequential or the parallel controller — the state it resumes from has both
the consecutive-search-failure and the consecutive-failure counter at zero.
(In the sequential controller the post-pause reset writes the stale
`consecutiveNullCvr` field instead of the search-failure counter, but a
trigger there is only reachable through case 1 of `checkRateLimit`, which
has already zeroed the search-failure counter.) -/
theorem C2_pause_resets_both_counters (st : RateLimitState) (p : Nat) (r : VerifyResult) :
    ((batchVerifyStep (st, p) r).2 ≠ p →
      (batchVerifyStep (st, p) r).1.consecutiveSearchFailures = 0 ∧
      (batchVerifyStep (st, p) r).1.consecutiveFailures = 0) ∧
    ((parallelBatchStep (st, p) r).2 ≠ p →
      (parallelBatchStep (st, p) r).1.consecutiveSearchFailures = 0 ∧
      (parallelBatchStep (st, p) r).1.consecutiveFailures = 0) := by
  constructor
  · rw [batchVerifyStep_eq]
    split_ifs with h1 h2
    · intro hp
      simp at hp
    · intro _
      exact ⟨rfl, rfl⟩
    · intro hp
      simp at hp
  · rw [parallelBatchStep_eq]
    split_ifs with h1 h2
    · intro hp
      simp at hp
    · intro _
      exact ⟨rfl, rfl⟩
    · intro hp
      simp at hp

/-- Witness for C2 at a state with two prior verification failures and a
third failing result: both iterations count a pause and land on zeroed
counters. -/
theorem C2_pause_resets_both_counters_witness :
    ((batchVerifyStep (⟨0, 2, 0, false⟩, 0) ⟨false, none⟩).2 ≠ 0 ∧
      (batchVerifyStep (⟨0, 2, 0, false⟩, 0) ⟨false, none⟩).1.consecutiveSearchFailures = 0 ∧
      (batchVerifyStep (⟨0, 2, 0, false⟩, 0) ⟨false, none⟩).1.consecutiveFailures = 0) ∧
    ((parallelBatchStep (⟨0, 2, 0, false⟩, 0) ⟨false, none⟩).2 ≠ 0 ∧
      (parallelBatchStep (⟨0, 2, 0, false⟩, 0) ⟨false, none⟩).1.consecutiveSearchFailures = 0 ∧
      (parallelBatchStep (⟨0, 2, 0, false⟩, 0) ⟨false, none⟩).1.consecutiveFailures = 0) :=
  ⟨⟨by decide,
    (C2_pause_resets_both_counters ⟨0, 2, 0, false⟩ 0 ⟨false, none⟩).1 (by decide)⟩,
   ⟨by decide,
    (C2_pause_resets_both_counters ⟨0, 2, 0, false⟩ 0 ⟨false, none⟩).2 (by decide)⟩⟩

/-- Claim C8: whenever the normalized code has a holding-table prefix at
some length `L` within the code (and, as the claim also posits, a
startup-table prefix at a length at most `L` — a hypothesis the priority
argument does not even need), the classifier returns type holding; in
particular a key in both tables at the same length, such as 6499, resolves
to holding. -/
theorem C8_holding_prefix_overrides_startup (c : String) (L : Nat)
    (hL : L ≤ (normalizeCode c).length)
    (hH : (lookupHolding ((normalizeCode c).take L)).isSome)
    (hS : ∃ L2, L2 ≤ L ∧ (lookupStartup ((normalizeCode c).take L2)).isSome) :
    (classifyIndustryCode (some c)).type = IndType.holding := by
  have hcne : c ≠ "" := by
    intro hcontra
    subst hcontra
    have hlen : (normalizeCode "").length = 0 := rfl
    have hL0 : L = 0 := by omega
    subst hL0
    have hnone : lookupHolding ((normalizeCode "").take 0) = none := by decide
    rw [hnone] at hH
    simp at hH
  simp only [classifyIndustryCode, if_neg hcne]
  exact classifyLoop_holding (normalizeCode c) L hL hH (normalizeCode c).length hL le_rfl

/-- Witness for C8 at the code 6499, which sits in the holding and startup
tables at the same prefix length 4: the classifier returns holding. -/
theorem C8_holding_prefix_overrides_startup_witness :
    4 ≤ (normalizeCode "6499").length ∧
    (lookupHolding ((normalizeCode "6499").take 4)).isSome ∧
    (lookupStartup ((normalizeCode "6499").take 4)).isSome ∧
    (classifyIndustryCode (some "6499")).type = IndType.holding :=
  ⟨by decide, by decide, by decide,
   C8_holding_prefix_overrides_startup "6499" 4 (by decide) (by decide)
     ⟨4, le_refl 4, by decide⟩⟩

/-- Claim C9: the scorer classifies as holding exactly when the industry
classifier assigned holding, and as local_service exactly when it assigned
local_service — neither class is reachable from score thresholds alone —
and an input whose industry code is 642020 is classified holding for every
status, year, web-presence and name input (hence every total score). -/
theorem C9_holding_local_only_from_industry (currentYear : Int) (data : ScoreInput) :
    ((calculateConfidence currentYear data).classification = IndType.holding ↔
      (classifyIndustryCode data.industryCode).type = IndType.holding) ∧
    ((calculateConfidence currentYear data).classification = IndType.local_service ↔
      (classifyIndustryCode data.industryCode).type = IndType.local_service) ∧
    (data.industryCode = some "642020" →
      (calculateConfidence currentYear data).classification = IndType.holding) := by
  have hres := resolveClassification_iff (classifyIndustryCode data.industryCode).type
    (calculateConfidence currentYear data).confidence
  rw [calculateConfidence_classification]
  refine ⟨hres.1, hres.2, ?_⟩
  intro h
  rw [h]
  have hhold : (classifyIndustryCode (some "642020")).type = IndType.holding := by decide
  exact (resolveClassification_iff _ _).1.mpr hhold

/-- Witness for C9 at a concrete holding-coded input with a dissolved
status and empty web presence: the classification is holding. -/
theorem C9_holding_local_only_from_industry_witness :
    (calculateConfidence 2026
      ⟨some "Opløst", some "642020", some 1990, some ⟨false, false, some [], false⟩,
       some "Holdco", some "Holdco"⟩).classification = IndType.holding :=
  (C9_holding_local_only_from_industry 2026
    ⟨some "Opløst", some "642020", some 1990, some ⟨false, false, some [], false⟩,
     some "Holdco", some "Holdco"⟩).2.2 rfl

/-- The confidence field of the scorer result is the rounded weighted sum
of the five sub-scores (the weights written out as their exact decimal
values). -/
theorem calculateConfidence_confidence (currentYear : Int) (data : ScoreInput) :
    (calculateConfidence currentYear data).confidence =
      round ((scoreCvrStatus data.cvrStatus : ℚ) * 0.30 +
        ((classifyIndustryCode data.industryCode).score : ℚ) * 0.25 +
        (scoreAge currentYear data.foundedYear : ℚ) * 0.15 +
        (scoreWebPresence data.webPresence : ℚ) * 0.20 +
        (scoreNameMatch data.searchedName data.foundName : ℚ) * 0.10) := rfl

/-- Claim C10: the computed confidence is an integer between 0 and 100 for
every scoring input, and the five weights sum to exactly 1, so the stored
value always satisfies the database check constraint on
`confidence_score`. -/
theorem C10_confidence_in_range (currentYear : Int) (data : ScoreInput) :
    0 ≤ (calculateConfidence currentYear data).confidence ∧
    (calculateConfidence currentYear data).confidence ≤ 100 ∧
    WEIGHTS.cvrStatus + WEIGHTS.industry + WEIGHTS.age +
      WEIGHTS.webPresence + WEIGHTS.nameMatch = 1 := by
  have h1 := scoreCvrStatus_le data.cvrStatus
  have h2 := classifyIndustryCode_score_le data.industryCode
  have h3 := scoreAge_le currentYear data.foundedYear
  have h4 := scoreWebPresence_le data.webPresence
  obtain ⟨h5a, h5b⟩ := scoreNameMatch_bounds data.searchedName data.foundName
  have h1q : (scoreCvrStatus data.cvrStatus : ℚ) ≤ 100 := by exact_mod_cast h1
  have h2q : ((classifyIndustryCode data.industryCode).score : ℚ) ≤ 100 := by exact_mod_cast h2
  have h3q : (scoreAge currentYear data.foundedYear : ℚ) ≤ 100 := by exact_mod_cast h3
  have h4q : (scoreWebPresence data.webPresence : ℚ) ≤ 100 := by exact_mod_cast h4
  have h5aq : (0 : ℚ) ≤ (scoreNameMatch data.searchedName data.foundName : ℚ) := by
    exact_mod_cast h5a
  have h5bq : (scoreNameMatch data.searchedName data.foundName : ℚ) ≤ 100 := by
    exact_mod_cast h5b
  have h1q0 : (0 : ℚ) ≤ (scoreCvrStatus data.cvrStatus : ℚ) := Nat.cast_nonneg _
  have h2q0 : (0 : ℚ) ≤ ((classifyIndustryCode data.industryCode).score : ℚ) :=
    Nat.cast_nonneg _
  have h3q0 : (0 : ℚ) ≤ (scoreAge currentYear data.foundedYear : ℚ) := Nat.cast_nonneg _
  have h4q0 : (0 : ℚ) ≤ (scoreWebPresence data.webPresence : ℚ) := Nat.cast_nonneg _
  have hb := roundBounds ((scoreCvrStatus data.cvrStatus : ℚ) * 0.30 +
      ((classifyIndustryCode data.industryCode).score : ℚ) * 0.25 +
      (scoreAge currentYear data.foundedYear : ℚ) * 0.15 +
      (scoreWebPresence data.webPresence : ℚ) * 0.20 +
      (scoreNameMatch data.searchedName data.foundName : ℚ) * 0.10)
    (by nlinarith) (by nlinarith)
  rw [calculateConfidence_confidence]
  exact ⟨hb.1, hb.2, by norm_num [WEIGHTS]⟩
